import Mathlib

/-!
Shallow embedding of `custom_components/mark_levinson_avr/mlctrl/mlctrl.py`
(class `MLCtrl`, a synchronous TCP client for a Mark Levinson preamplifier)
and of the volume line of `custom_components/mark_levinson_avr/media_player.py`.

Python strings are Lean `String`s; Python `str.split(sep)` for one-character
separators, `str.replace(c, "")`, the `in` substring test, `float(...)`,
`str(float)` and list indexing are modelled by the `py*` helpers below.
Exceptions are modelled with `Except PyExc`; the value `False` that
`_exec_appcommand_post` returns from its handler is modelled as `none` in
`Option String` (a Python `str | False` union).  The TCP socket and the
device are modelled by a `TransportResult` oracle: each send/receive round
trip consumes one oracle value that says whether the socket was absent
(`self._socket is None`), the send/recv/decode step failed, or a reply
arrived with the given raw bytes.
-/

/-- Python exception classes that the embedded code can raise or catch. -/
inductive PyExc where
  | requestException
  | attributeError
  | osError
  | unicodeDecodeError
  | indexError
  | typeError
  | valueError
  | keyError
  | zeroDivisionError
  deriving DecidableEq

/-- Outcome of one socket round trip, as an oracle input: the socket is
`None` (connect failed), the `send` / `recv` / `decode` step fails, or the
device replies with the given raw data. -/
inductive TransportResult where
  | noSocket
  | sendError
  | recvError
  | decodeError
  | reply (data : String)
  deriving DecidableEq

/-- Python `s.replace(c, "")` for a one-character pattern: removes every
occurrence of the character. -/
def pyRemoveChar (c : Char) (s : String) : String :=
  ⟨s.data.filter (fun x => x ≠ c)⟩

/-- Python `s.split(sep)` for a one-character separator, on char lists:
keeps empty fields, and `"".split(sep) = [""]`. -/
def splitOnChar (c : Char) : List Char → List (List Char)
  | [] => [[]]
  | x :: xs =>
      let r := splitOnChar c xs
      if x = c then [] :: r
      else
        match r with
        | [] => [[x]]
        | y :: ys => (x :: y) :: ys

/-- Python `s.split(sep)` for a one-character separator. -/
def pySplit (c : Char) (s : String) : List String :=
  (splitOnChar c s.data).map (fun l => ⟨l⟩)

/-- Does `pat` occur as a contiguous sublist of `s`? -/
def infixOf (pat : List Char) : List Char → Bool
  | [] => pat.isEmpty
  | c :: cs => pat.isPrefixOf (c :: cs) || infixOf pat cs

/-- Python `pat in s` substring test. -/
def pyIn (pat s : String) : Bool :=
  infixOf pat.data s.data

/-- Python `pat in resp` where `resp : str | False`; on the `False` value
(`none`) Python raises `TypeError: argument of type 'bool' is not iterable`. -/
def pyInOpt (pat : String) : Option String → Except PyExc Bool
  | some s => .ok (pyIn pat s)
  | none => .error .typeError

/-- The stripping `_exec_appcommand_post` applies to a decoded reply:
`.replace("\r", "").replace("\n", "")`. -/
def stripCRLF (s : String) : String :=
  pyRemoveChar '\n' (pyRemoveChar '\r' s)

/-- Python list indexing `l[i]`, raising `IndexError` out of range. -/
def pyIndexStr (l : List String) (i : Nat) : Except PyExc String :=
  match l.get? i with
  | some x => .ok x
  | none => .error .indexError

/-- Value of a digit list read in base 10. -/
def digitsToNat (l : List Char) : Nat :=
  l.foldl (fun a c => a * 10 + (c.toNat - 48)) 0

/-- Syntactic part of the Python `float(...)` builtin on decimal literals:
optional sign, integer digits, optional point and fraction digits.  Returns
`(negative, integer digits, fraction digits)` or `none` when the string is
not a decimal literal (Python raises `ValueError` there; exotic accepted
forms such as exponents, `inf` or `nan` are not produced by this device
protocol and are treated as unparsable). -/
def pyFloatParts (s : String) : Option (Bool × List Char × List Char) :=
  let cs := s.data
  let neg := cs.head? == some '-'
  let rest := if cs.head? == some '-' || cs.head? == some '+' then cs.tail else cs
  let ip := rest.takeWhile (fun c => c.isDigit)
  let r2 := rest.dropWhile (fun c => c.isDigit)
  if r2 = [] then
    if ip = [] then none else some (neg, ip, [])
  else if r2.head? == some '.' && r2.tail.all (fun c => c.isDigit)
      && !(ip.isEmpty && r2.tail.isEmpty) then
    some (neg, ip, r2.tail)
  else none

/-- Numeric value of a parsed decimal literal. -/
def partsToRat : Bool × List Char × List Char → ℚ
  | (neg, ip, fp) =>
      (if neg then -1 else 1) *
        ((digitsToNat ip : ℚ) + (digitsToNat fp : ℚ) / 10 ^ fp.length)

/-- Python `float(s)`, modelled on decimal literals: the parsed value, or
`none` where Python raises `ValueError`. -/
def pyFloat (s : String) : Option ℚ :=
  (pyFloatParts s).map partsToRat

/-- Digits of the fractional expansion of `r / d`, most significant first,
stopping when the remainder is exhausted or after `fuel` digits. -/
def fracDigitsAux : Nat → Nat → Nat → List Char
  | 0, _, _ => []
  | _ + 1, 0, _ => []
  | fuel + 1, r, d =>
      Char.ofNat (48 + r * 10 / d) :: fracDigitsAux fuel (r * 10 % d) d

/-- Python `str(x)` for a float value: a nonempty decimal rendering such as
`"-1.0"`.  Integer-valued floats render with a trailing `".0"`; fractional
digits are rendered to at most 17 places (the exact digit string for
non-decimal rationals is irrelevant to the protocol). -/
def pyFloatRepr (q : ℚ) : String :=
  let n := q.num.natAbs
  let fr := n % q.den
  ⟨(if q < 0 then ['-'] else []) ++ (Nat.repr (n / q.den)).data ++
    '.' :: (if fr = 0 then ['0'] else fracDigitsAux 17 fr q.den)⟩

/-- A Python runtime value, as far as the embedded code needs: strings,
floats, ints, bools and `None`. -/
inductive PyVal where
  | str (s : String)
  | float (q : ℚ)
  | int (n : ℤ)
  | bool (b : Bool)
  | none

/-- Python truthiness on the values above. -/
def pyTruthyVal : PyVal → Bool
  | .str s => !s.data.isEmpty
  | .float q => decide (q ≠ 0)
  | .int n => decide (n ≠ 0)
  | .bool b => b
  | .none => false

/-- Python `/` (true division): defined on numeric pairs, `TypeError` on a
string operand (bools count as ints). -/
def pyDiv (a b : PyVal) : Except PyExc PyVal :=
  match a, b with
  | .float x, .float y => if y = 0 then .error .zeroDivisionError else .ok (.float (x / y))
  | .float x, .int m => if m = 0 then .error .zeroDivisionError else .ok (.float (x / (m : ℚ)))
  | .int n, .float y => if y = 0 then .error .zeroDivisionError else .ok (.float ((n : ℚ) / y))
  | .int n, .int m => if m = 0 then .error .zeroDivisionError else .ok (.float ((n : ℚ) / (m : ℚ)))
  | _, _ => .error .typeError

/-! ## The command table and the transport (`_get_new_socket`, `_exec_appcommand_post`, `send_command`) -/

/-- `COMMAND_MAPPING`: logical operation name to wire-format command string. -/
def COMMAND_MAPPING : List (String × String) :=
  [("POWER_OFF", "RQST:CS:PWR:STANDBY"),
   ("POWER_ON", "RQST:CS:PWR:ON"),
   ("SLEEP", "RQST:CS:PW:STANDBY"),
   ("VOLUME_UP", "RQST:CS:IRDWNUP:VOLUME_UP"),
   ("VOLUME_DOWN", "RQST:CS:IRDWNUP:VOLUME_DOWN"),
   ("VOLUME", "RQST:CS:VOL:"),
   ("MUTE_TOGGLE", "RQST:CS:MUTE:"),
   ("SOURCE", "RQST:CS:ACT:"),
   ("GET_SOURCES", "RQST:CS:REQ_ACT_LIST:?"),
   ("HEARTBEAT", "RQST:CS:PWR:?")]

def POWER_ON : String := "ON"
def POWER_OFF : String := "OFF"
def POWER_STANDBY : String := "STANDBY"
def STATE_ON : String := "on"
def STATE_OFF : String := "off"

/-- The `payload` built inside `_exec_appcommand_post`: `command + param + "\r"`
when `param` is truthy (nonempty), else `command + "\r"`. -/
def buildPayload (command param : String) : String :=
  if param ≠ "" then command ++ param ++ "\r" else command ++ "\r"

/-- The body of the `try` block of `_exec_appcommand_post`: build the payload,
`self._socket.send(...)`, `self._socket.recv(64)`, decode, and strip `"\r"`
then `"\n"`.  When the socket is `None` the attribute access `._socket.send`
raises `AttributeError`; a send or receive failure raises `OSError`
(`socket.error`); a decode failure raises `UnicodeDecodeError`. -/
def execTryBody (command param : String) (t : TransportResult) : Except PyExc String :=
  let _payload := buildPayload command param
  match t with
  | .noSocket => .error .attributeError
  | .sendError => .error .osError
  | .recvError => .error .osError
  | .decodeError => .error .unicodeDecodeError
  | .reply data => .ok (stripCRLF data)

/-- `MLCtrl._exec_appcommand_post`: runs the `try` body; the `except`
clause catches only `requests.exceptions.RequestException` and returns
`False` (modelled `none`); every other exception propagates. -/
def execAppcommandPost (command param : String) (t : TransportResult) :
    Except PyExc (Option String) :=
  match execTryBody command param t with
  | .ok s => .ok (some s)
  | .error e => if e = .requestException then .ok none else .error e

/-- `MLCtrl.send_command`: `comm = COMMAND_MAPPING[command]` (raising
`KeyError` on an unknown key) then `_exec_appcommand_post(comm, param)`. -/
def send_command (command : String) (param : String) (t : TransportResult) :
    Except PyExc (Option String) :=
  match COMMAND_MAPPING.lookup command with
  | some comm => execAppcommandPost comm param t
  | none => .error .keyError

/-! ## The client state (`MLCtrl.__init__` fields) -/

/-- The mutable and identification fields of an `MLCtrl` instance.  `_state`,
`_power` and `_current_source` start as Python `None`, hence `Option`. -/
structure MLState where
  name : Option String
  host : String
  port : Nat
  zone : String
  mute : String
  volume : ℚ
  state : Option String
  power : Option String
  current_source : Option String
  sources : List String

/-- The field initialisation of `MLCtrl.__init__` (before `_get_new_socket`
and the initial `update_all`). -/
def mkInitState (host : String) (port : Nat) (name : Option String) : MLState :=
  { name := name
    host := host
    port := port
    zone := "Main Zone"
    mute := STATE_OFF
    volume := -1
    state := Option.none
    power := Option.none
    current_source := Option.none
    sources := [] }

/-- `MLCtrl.volume` property: `return str(self._volume)` — a string, not a
number. -/
def volumeProp (st : MLState) : PyVal :=
  .str (pyFloatRepr st.volume)

/-- `MLCtrl.muted` property: `bool(self._mute == STATE_ON)`. -/
def mutedProp (st : MLState) : Bool :=
  st.mute = STATE_ON

/-- How a client operation ends: a normal return, an uncaught Python
exception carried to the caller, or the reply oracle ran out of entries
(only the recursive `update_current_source` can consume more than one). -/
inductive Outcome where
  | normal
  | raised (e : PyExc)
  | outOfReplies
  deriving DecidableEq

/-! ## The refresh operations -/

/-- `MLCtrl.update_power_state`: heartbeat query; exact-match the reply
against the three known power strings; otherwise log and leave state
unchanged.  The `except` clause catches only `RequestException`. -/
def update_power_state (t : TransportResult) (st : MLState) : MLState × Outcome :=
  match send_command "HEARTBEAT" "" t with
  | .error e => if e = .requestException then (st, .normal) else (st, .raised e)
  | .ok resp =>
      if resp = some "RSP:CS:PWR:STANDBY" then
        ({st with power := some POWER_STANDBY, state := some STATE_OFF}, .normal)
      else if resp = some "RSP:CS:PWR:ON" then
        ({st with power := some POWER_ON, state := some STATE_ON}, .normal)
      else if resp = some "RSP:CS:PWR:OFF" then
        ({st with power := some POWER_OFF, state := some STATE_OFF}, .normal)
      else (st, .normal)

/-- `MLCtrl.update_sources`: on a truthy reply containing the marker
`"RSP:CS:REQ_ACT_LIST:"`, set `_sources` to the 4th colon field split on
commas; otherwise log and leave it unchanged. -/
def update_sources (t : TransportResult) (st : MLState) : MLState × Outcome :=
  match send_command "GET_SOURCES" "" t with
  | .error e => if e = .requestException then (st, .normal) else (st, .raised e)
  | .ok Option.none => (st, .normal)
  | .ok (some r) =>
      if r = "" then (st, .normal)
      else if pyIn "RSP:CS:REQ_ACT_LIST:" r then
        match pyIndexStr (pySplit ':' r) 3 with
        | .ok f => ({st with sources := pySplit ',' f}, .normal)
        | .error e => (st, .raised e)
      else (st, .normal)

/-- `MLCtrl.update_current_source`: query `"SOURCE"` with `"?"`; on a reply
containing `"RSP:CS:ACT:"`: an `"ACK"` reply is ignored, an `"APROF"` reply
triggers an unconditional recursive re-query, otherwise the 4th colon field
becomes `_current_source`.  The recursion consumes the oracle list; the
third component counts the send/receive round trips performed. -/
def update_current_source : List TransportResult → MLState → MLState × Outcome × Nat
  | [], st => (st, .outOfReplies, 0)
  | t :: rest, st =>
      match send_command "SOURCE" "?" t with
      | .error e =>
          if e = .requestException then (st, .normal, 1) else (st, .raised e, 1)
      | .ok Option.none => (st, .normal, 1)
      | .ok (some r) =>
          if r = "" then (st, .normal, 1)
          else if pyIn "RSP:CS:ACT:" r then
            if pyIn "ACK" r then (st, .normal, 1)
            else if pyIn "APROF" r then
              let rec' := update_current_source rest st
              (rec'.1, rec'.2.1, rec'.2.2 + 1)
            else
              match pyIndexStr (pySplit ':' r) 3 with
              | .ok f => ({st with current_source := some f}, .normal, 1)
              | .error e => (st, .raised e, 1)
          else (st, .normal, 1)

/-- `MLCtrl.update_volume`: query `"VOLUME"` with `"?"`; on a reply
containing `"RSP:CS:VOL:"` or `"NTF:UI:VOL:"` and no `"ACK"`, parse the 4th
colon field with `float(...)`, falling back to the sentinel `-1.0` when the
inner `except ValueError` fires. -/
def update_volume (t : TransportResult) (st : MLState) : MLState × Outcome :=
  match send_command "VOLUME" "?" t with
  | .error e => if e = .requestException then (st, .normal) else (st, .raised e)
  | .ok Option.none => (st, .normal)
  | .ok (some r) =>
      if r = "" then (st, .normal)
      else if pyIn "RSP:CS:VOL:" r || pyIn "NTF:UI:VOL:" r then
        if pyIn "ACK" r then (st, .normal)
        else
          match pyIndexStr (pySplit ':' r) 3 with
          | .ok f =>
              match pyFloat f with
              | some v => ({st with volume := v}, .normal)
              | Option.none => ({st with volume := -1}, .normal)
          | .error e => (st, .raised e)
      else (st, .normal)

/-- `MLCtrl.update_mutestate`: on a truthy reply containing the marker
`"RSP:CS:MUTE:"`, the 4th colon field becomes `_mute`. -/
def update_mutestate (t : TransportResult) (st : MLState) : MLState × Outcome :=
  match send_command "MUTE_TOGGLE" "?" t with
  | .error e => if e = .requestException then (st, .normal) else (st, .raised e)
  | .ok Option.none => (st, .normal)
  | .ok (some r) =>
      if r = "" then (st, .normal)
      else if pyIn "RSP:CS:MUTE:" r then
        match pyIndexStr (pySplit ':' r) 3 with
        | .ok f => ({st with mute := f}, .normal)
        | .error e => (st, .raised e)
      else (st, .normal)

/-- Sequence two stateful steps, stopping on a raised exception or an
exhausted reply oracle. -/
def seqOutcome (r : MLState × Outcome) (f : MLState → MLState × Outcome) :
    MLState × Outcome :=
  match r with
  | (st, .normal) => f st
  | x => x

/-- `MLCtrl.update_all`: power, volume and mute refresh unconditionally;
current source and sources only when `self._power == POWER_ON`. -/
def update_all (t1 t2 t3 : TransportResult) (tcs : List TransportResult)
    (t4 : TransportResult) (st : MLState) : MLState × Outcome :=
  seqOutcome (update_power_state t1 st) (fun st1 =>
    seqOutcome (update_volume t2 st1) (fun st2 =>
      seqOutcome (update_mutestate t3 st2) (fun st3 =>
        if st3.power = some POWER_ON then
          seqOutcome
            (let r := update_current_source tcs st3
             (r.1, r.2.1))
            (fun st4 => update_sources t4 st4)
        else (st3, .normal))))

/-! ## The command operations -/

/-- `MLCtrl.power_on`: send `"POWER_ON"`, then optimistically set
`_power = POWER_ON`, `_state = STATE_ON` and return `True`; only
`RequestException` is caught (returning `False`). -/
def power_on (t : TransportResult) (st : MLState) : MLState × Except PyExc Bool :=
  match send_command "POWER_ON" "" t with
  | .ok _ => ({st with power := some POWER_ON, state := some STATE_ON}, .ok true)
  | .error e => if e = .requestException then (st, .ok false) else (st, .error e)

/-- `MLCtrl.power_off`: send `"POWER_OFF"`, then optimistically set
`_power = POWER_OFF`, `_state = STATE_OFF` and return `True`. -/
def power_off (t : TransportResult) (st : MLState) : MLState × Except PyExc Bool :=
  match send_command "POWER_OFF" "" t with
  | .ok _ => ({st with power := some POWER_OFF, state := some STATE_OFF}, .ok true)
  | .error e => if e = .requestException then (st, .ok false) else (st, .error e)

/-- `MLCtrl.sleep`: send `"SLEEP"` and return `True`; no state change. -/
def sleep (t : TransportResult) (st : MLState) : MLState × Except PyExc Bool :=
  match send_command "SLEEP" "" t with
  | .ok _ => (st, .ok true)
  | .error e => if e = .requestException then (st, .ok false) else (st, .error e)

/-- `MLCtrl.set_volume`: send `"VOLUME"` with `str(volume)` as parameter;
then `if "ACK" in resp:` — only in that branch is `_volume = float(volume)`
cached — and return `True` either way.  When the send returned `False`
(dead path), `"ACK" in False` would raise `TypeError`. -/
def set_volume (volume : ℚ) (t : TransportResult) (st : MLState) :
    MLState × Except PyExc Bool :=
  match send_command "VOLUME" (pyFloatRepr volume) t with
  | .error e => if e = .requestException then (st, .ok false) else (st, .error e)
  | .ok resp =>
      match pyInOpt "ACK" resp with
      | .error e => (st, .error e)
      | .ok true => ({st with volume := volume}, .ok true)
      | .ok false => (st, .ok true)

/-- `MLCtrl.volume_up`: `new_vol = self._volume + 0.5`, delegate to
`set_volume`, return `True`. -/
def volume_up (t : TransportResult) (st : MLState) : MLState × Except PyExc Bool :=
  let new_vol := st.volume + 1 / 2
  match set_volume new_vol t st with
  | (st1, .ok _) => (st1, .ok true)
  | (st1, .error e) =>
      if e = .requestException then (st1, .ok false) else (st1, .error e)

/-- `MLCtrl.volume_down`: `new_vol = self._volume - 0.5`, delegate to
`set_volume`, return `True`. -/
def volume_down (t : TransportResult) (st : MLState) : MLState × Except PyExc Bool :=
  let new_vol := st.volume - 1 / 2
  match set_volume new_vol t st with
  | (st1, .ok _) => (st1, .ok true)
  | (st1, .error e) =>
      if e = .requestException then (st1, .ok false) else (st1, .error e)

/-- `MLCtrl.select_source`: send `"SOURCE"` with the source name; then
`resp = self._current_source = source` overwrites both with the requested
name, so the following `if "ACK" in resp:` tests the requested name, and
both branches set `_current_source = source` and return `True`. -/
def select_source (source : String) (t : TransportResult) (st : MLState) :
    MLState × Except PyExc Bool :=
  match send_command "SOURCE" source t with
  | .error e => if e = .requestException then (st, .ok false) else (st, .error e)
  | .ok _ =>
      let st1 := {st with current_source := some source}
      if pyIn "ACK" source then
        ({st1 with current_source := some source}, .ok true)
      else (st1, .ok true)

/-- `MLCtrl.mute`: send `"MUTE_TOGGLE"` with `"ON"`/`"OFF"`, optimistically
set `_mute` to the requested state and return `True`. -/
def mute (m : Bool) (t : TransportResult) (st : MLState) :
    MLState × Except PyExc Bool :=
  if m then
    match send_command "MUTE_TOGGLE" "ON" t with
    | .ok _ => ({st with mute := STATE_ON}, .ok true)
    | .error e => if e = .requestException then (st, .ok false) else (st, .error e)
  else
    match send_command "MUTE_TOGGLE" "OFF" t with
    | .ok _ => ({st with mute := STATE_OFF}, .ok true)
    | .error e => if e = .requestException then (st, .ok false) else (st, .error e)

/-! ## The message decoder (`MLCtrl.decode_message`) -/

/-- The `HEADERS` dict of `decode_message`. -/
def HEADERS : List (String × String) :=
  [("RQST", "Request"), ("RSP", "Response"), ("NTF", "Broadcast Notification")]

/-- The `SOURCES` dict of `decode_message`. -/
def SOURCES_MAP : List (String × String) :=
  [("CS", "Control Source"), ("UI", "User Interaction"), ("AV", "Component")]

/-- One fully described entry of the `COMMANDS` grammar dict. -/
structure CommandInfo where
  name : String
  accepts_param : Bool
  accepts_query : Bool
  ack_on_set : Bool
  param_format : List String
  response : List String

/-- A `COMMANDS` value: either a full grammar record or (for the trailing
entries of the dict) just a display name string. -/
inductive CommandEntry where
  | info (i : CommandInfo)
  | nameOnly (s : String)

/-- The `COMMANDS` grammar dict of `decode_message`. -/
def COMMANDS : List (String × CommandEntry) :=
  [("ACT", .info ⟨"Activity", true, true, true, ["Name"], []⟩),
   ("APROF", .info ⟨"Audio Profile", true, true, true, ["Name"], ["Name"]⟩),
   ("AVSYNC", .info ⟨"Audio Video Sync Delay", true, true, true,
      ["0.0 - 500.0"], ["0.0 - 500.0"]⟩),
   ("BAL", .info ⟨"Balance", true, true, true,
      ["ROFF", "LOFF", "-14.0 - 14.0"], ["LOFF", "ROFF", "-14.0 - 14.0"]⟩),
   ("DISPCFG", .info ⟨"Display Configuration", true, true, true, ["Name"], ["Name"]⟩),
   ("ENCENTER", .info ⟨"Center Channel", true, true, true, ["ON", "OFF"], ["ON", "OFF"]⟩),
   ("ENSURR", .info ⟨"Surround Channel", true, true, true, ["ON", "OFF"], ["ON", "OFF"]⟩),
   ("ENREAR", .info ⟨"Rear Channel", true, true, true, ["ON", "OFF"], ["ON", "OFF"]⟩),
   ("ENSUB1", .info ⟨"Subwoofer 1", true, true, true, ["ON", "OFF"], ["ON", "OFF"]⟩),
   ("ENSUB2", .info ⟨"Subwoofer 2", true, true, true, ["ON", "OFF"], ["ON", "OFF"]⟩),
   ("FAULT", .info ⟨"Fault", false, false, false, [],
      ["THERM", "PWR", "SIGNAL", "UNKNOWN"]⟩),
   ("FPDISPINTENS", .info ⟨"Front Panel Display Intensity", true, true, true,
      ["OFF", "LOW", "MED", "HIGH"], ["OFF", "LOW", "MED", "HIGH"]⟩),
   ("MONEN", .info ⟨"Monitor", true, true, true, ["ON", "OFF"], ["ON", "OFF"]⟩),
   ("MUTE", .info ⟨"Mute", true, true, true, ["ON", "OFF"], ["ON", "OFF"]⟩),
   ("NOP", .info ⟨"No Operation", false, false, true, [], []⟩),
   ("PWR", .info ⟨"Power", true, true, true, ["ON", "STANDBY"], ["ON", "STANDBY"]⟩),
   ("REQ_ACT_LIST", .info ⟨"Request Activity List", false, true, false, [],
      ["Name List"]⟩),
   ("REQ_APROF_LIST", .info ⟨"Request Audio Profile List", false, true, false, [],
      ["Name List"]⟩),
   ("STATUS_MAIN", .nameOnly "Status"),
   ("STATUS_SYSTEM", .nameOnly "System Status"),
   ("SURRMODE", .nameOnly "Surround Mode"),
   ("TRIGGER_1", .nameOnly "Trigger 1"),
   ("TRIGGER_2", .nameOnly "Trigger 2"),
   ("TRIGGER_3", .nameOnly "Trigger 3"),
   ("TRIGGER_4", .nameOnly "Trigger 4"),
   ("VOL", .nameOnly "Volume"),
   ("VPROF", .nameOnly "Video Profile"),
   ("ZOOM", .nameOnly "Zoom")]

/-- `MLCtrl.decode_message`: split the message on `":"`, bind the three
static dicts, then read fields `[0]`..`[3]` into `header`, `source`,
`command`, `param` — any missing field raises `IndexError` — and fall off
the end of the function, returning Python `None` (modelled `.ok ()`). -/
def decode_message (message : String) : Except PyExc Unit := do
  let message_components := pySplit ':' message
  let _HEADERS := HEADERS
  let _SOURCES := SOURCES_MAP
  let _COMMANDS := COMMANDS
  let _header ← pyIndexStr message_components 0
  let _source ← pyIndexStr message_components 1
  let _command ← pyIndexStr message_components 2
  let _param ← pyIndexStr message_components 3
  pure ()

/-! ## The platform layer's volume line (`media_player.py` line 89) -/

/-- `media_player.py`, `MLAvrDevice.update` line 89:
`self._volume = self._avr.volume / 100 if self._avr.volume else 0.0` —
the property value (a string) divided by the int `100`. -/
def mediaPlayerVolumeLine (st : MLState) : Except PyExc PyVal :=
  if pyTruthyVal (volumeProp st) then pyDiv (volumeProp st) (.int 100)
  else .ok (.float 0)

/-! ## The public operation surface as one step relation -/

/-- One public operation of `MLCtrl`, together with the transport oracle
values its round trips consume. -/
inductive Op where
  | opUpdatePowerState (t : TransportResult)
  | opUpdateSources (t : TransportResult)
  | opUpdateCurrentSource (ts : List TransportResult)
  | opUpdateVolume (t : TransportResult)
  | opUpdateMutestate (t : TransportResult)
  | opUpdateAll (t1 t2 t3 : TransportResult) (tcs : List TransportResult)
      (t4 : TransportResult)
  | opPowerOn (t : TransportResult)
  | opPowerOff (t : TransportResult)
  | opSleep (t : TransportResult)
  | opVolumeUp (t : TransportResult)
  | opVolumeDown (t : TransportResult)
  | opSetVolume (v : ℚ) (t : TransportResult)
  | opSelectSource (s : String) (t : TransportResult)
  | opMute (b : Bool) (t : TransportResult)

/-- The client state after running one public operation (including the
state at the moment an uncaught exception leaves the operation). -/
def runOp : Op → MLState → MLState
  | .opUpdatePowerState t, st => (update_power_state t st).1
  | .opUpdateSources t, st => (update_sources t st).1
  | .opUpdateCurrentSource ts, st => (update_current_source ts st).1
  | .opUpdateVolume t, st => (update_volume t st).1
  | .opUpdateMutestate t, st => (update_mutestate t st).1
  | .opUpdateAll t1 t2 t3 tcs t4, st => (update_all t1 t2 t3 tcs t4 st).1
  | .opPowerOn t, st => (power_on t st).1
  | .opPowerOff t, st => (power_off t st).1
  | .opSleep t, st => (sleep t st).1
  | .opVolumeUp t, st => (volume_up t st).1
  | .opVolumeDown t, st => (volume_down t st).1
  | .opSetVolume v t, st => (set_volume v t st).1
  | .opSelectSource s t, st => (select_source s t st).1
  | .opMute b t, st => (mute b t st).1

/-- The derived on/off display state that belongs to a raw power value:
`"ON" ↦ "on"`, `"OFF" ↦ "off"`, `"STANDBY" ↦ "off"`, anything else
(including the initial `None`) has no display state. -/
def stateOfPower : Option String → Option String
  | some p =>
      if p = POWER_ON then some STATE_ON
      else if p = POWER_OFF then some STATE_OFF
      else if p = POWER_STANDBY then some STATE_OFF
      else Option.none
  | Option.none => Option.none

/-- The invariant of claim C8: `_state` is the pure function
`stateOfPower` of `_power`. -/
def stateInv (st : MLState) : Prop :=
  st.state = stateOfPower st.power

/-! ## Claims -/

/-- C1 (code bug): with the socket absent (`self._socket is None` after a
failed connect) a send does not return the distinct failure value `False`
(`.ok none`); the attribute access raises `AttributeError`, and likewise a
mid-command socket write/read failure raises `OSError` and a decode failure
raises `UnicodeDecodeError`, because the `except` clauses of
`_exec_appcommand_post` and of every public operation catch only
`requests.exceptions.RequestException`, which raw socket operations never
raise.  The exception reaches the caller of the public operation, here
shown for `update_power_state`. -/
theorem c1_absent_connection_raises_unhandled :
    send_command "HEARTBEAT" "" .noSocket = .error .attributeError ∧
    send_command "HEARTBEAT" "" .sendError = .error .osError ∧
    send_command "VOLUME" "?" .decodeError = .error .unicodeDecodeError ∧
    update_power_state .noSocket (mkInitState "192.168.1.9" 15003 Option.none) =
      (mkInitState "192.168.1.9" 15003 Option.none, .raised .attributeError) ∧
    (Except.error .attributeError ≠ (.ok Option.none : Except PyExc (Option String))) :=
  ⟨rfl, rfl, rfl, rfl, fun h => Except.noConfusion h⟩

/-- C2 counterexample: on the reply `"RSP:CS:REQ_ACT_LIST:NAMES:A,B,C"`,
`update_sources` sets `_sources` to `resp.split(":")[3].split(",")`, and the
4th colon field is `"NAMES"`, so the source list becomes `["NAMES"]` — not
`["A", "B", "C"]` as claimed. -/
theorem c2_counterexample :
    (update_sources (.reply "RSP:CS:REQ_ACT_LIST:NAMES:A,B,C")
        (mkInitState "avr.local" 15003 Option.none)).1.sources = ["NAMES"] ∧
    (["NAMES"] : List String) ≠ ["A", "B", "C"] :=
  ⟨by decide, by decide⟩

/-- C2 (amended): on the reply `"RSP:CS:REQ_ACT_LIST:NAMES:A,B,C"`,
`update_sources` sets the source list to the 4th colon-delimited field
split on commas — `["NAMES"]` — and on any reply not containing the marker
`"RSP:CS:REQ_ACT_LIST:"` it leaves the whole state unchanged. -/
theorem c2_update_sources :
    (∀ st, update_sources (.reply "RSP:CS:REQ_ACT_LIST:NAMES:A,B,C") st =
        ({st with sources := ["NAMES"]}, .normal)) ∧
    (∀ (st : MLState) (r : String),
        pyIn "RSP:CS:REQ_ACT_LIST:" (stripCRLF r) = false →
        update_sources (.reply r) st = (st, .normal)) := by
  constructor
  · intro st
    rfl
  · intro st r h
    have hs : send_command "GET_SOURCES" "" (.reply r) = .ok (some (stripCRLF r)) := rfl
    simp only [update_sources, hs]
    split
    · rfl
    · simp [h]

/-- C2 witness: a reply without the marker leaves the state unchanged. -/
theorem c2_witness :
    pyIn "RSP:CS:REQ_ACT_LIST:" (stripCRLF "RSP:CS:PWR:ON") = false ∧
    update_sources (.reply "RSP:CS:PWR:ON") (mkInitState "w2" 2 Option.none) =
      (mkInitState "w2" 2 Option.none, .normal) :=
  ⟨by decide,
   c2_update_sources.2 (mkInitState "w2" 2 Option.none) "RSP:CS:PWR:ON" (by decide)⟩

/-- C3 counterexample: `set_volume(42.5)` against a successful reply that
carries no `"ACK"` leaves the cached volume at its prior value (`-1.0`
here), so an immediately subsequent volume read does not return `42.5`;
the operation still returns `True`. -/
theorem c3_counterexample :
    (set_volume (85 / 2) (.reply "RSP:CS:VOL:SET")
        (mkInitState "10.0.0.2" 15003 Option.none)).1.volume = -1 ∧
    ((-1 : ℚ) ≠ 85 / 2) ∧
    (set_volume (85 / 2) (.reply "RSP:CS:VOL:SET")
        (mkInitState "10.0.0.2" 15003 Option.none)).2 = .ok true :=
  ⟨by decide, by norm_num, rfl⟩

/-- C3 (amended): on a successful transport send, `set_volume v` returns
`True` whether or not the reply contains `"ACK"`; but it caches `_volume = v`
only when the reply does contain `"ACK"`, and leaves the cached volume
unchanged otherwise. -/
theorem c3_set_volume :
    ∀ (v : ℚ) (r : String) (st : MLState),
      (pyIn "ACK" (stripCRLF r) = true →
          set_volume v (.reply r) st = ({st with volume := v}, .ok true)) ∧
      (pyIn "ACK" (stripCRLF r) = false →
          set_volume v (.reply r) st = (st, .ok true)) := by
  intro v r st
  have hs : send_command "VOLUME" (pyFloatRepr v) (.reply r) =
      .ok (some (stripCRLF r)) := rfl
  constructor
  · intro h
    simp only [set_volume, hs, pyInOpt, h]
  · intro h
    simp only [set_volume, hs, pyInOpt, h]

/-- C3 witness: with an `"ACK"` reply the volume is cached and `True`
returned. -/
theorem c3_witness :
    pyIn "ACK" (stripCRLF "RSP:CS:VOL:ACK") = true ∧
    set_volume 10 (.reply "RSP:CS:VOL:ACK") (mkInitState "w3" 3 Option.none) =
      ({mkInitState "w3" 3 Option.none with volume := 10}, .ok true) :=
  ⟨by decide, (c3_set_volume 10 "RSP:CS:VOL:ACK" (mkInitState "w3" 3 Option.none)).1 (by decide)⟩

/-- C7 (confirmed): for every source name and every device reply text, a
`select_source` whose send succeeds sets `_current_source` to the requested
name and returns `True`; the `"ACK"` test (performed on the just-overwritten
variable, i.e. on the requested name) has no observable effect — both its
branches yield this same state and return value. -/
theorem c7_select_source :
    ∀ (source r : String) (st : MLState),
      select_source source (.reply r) st =
        ({st with current_source := some source}, .ok true) := by
  intro source r st
  have hs : send_command "SOURCE" source (.reply r) = .ok (some (stripCRLF r)) := rfl
  simp only [select_source, hs]
  split <;> rfl

/-- C5 (confirmed): `update_power_state` maps each of the three valid
heartbeat replies to its exact `(power, state)` pair, and any other reply
string leaves the whole state unchanged. -/
theorem c5_update_power_state :
    (∀ st, update_power_state (.reply "RSP:CS:PWR:ON") st =
        ({st with power := some POWER_ON, state := some STATE_ON}, .normal)) ∧
    (∀ st, update_power_state (.reply "RSP:CS:PWR:STANDBY") st =
        ({st with power := some POWER_STANDBY, state := some STATE_OFF}, .normal)) ∧
    (∀ st, update_power_state (.reply "RSP:CS:PWR:OFF") st =
        ({st with power := some POWER_OFF, state := some STATE_OFF}, .normal)) ∧
    (∀ (st : MLState) (r : String),
        stripCRLF r ≠ "RSP:CS:PWR:ON" →
        stripCRLF r ≠ "RSP:CS:PWR:STANDBY" →
        stripCRLF r ≠ "RSP:CS:PWR:OFF" →
        update_power_state (.reply r) st = (st, .normal)) := by
  refine ⟨fun st => rfl, fun st => rfl, fun st => rfl, ?_⟩
  intro st r h1 h2 h3
  have hs : send_command "HEARTBEAT" "" (.reply r) = .ok (some (stripCRLF r)) := rfl
  simp only [update_power_state, hs]
  simp [h1, h2, h3]

/-- C5 witness: an unknown heartbeat reply leaves the state unchanged. -/
theorem c5_witness :
    stripCRLF "RSP:CS:PWR:BOGUS" ≠ "RSP:CS:PWR:ON" ∧
    update_power_state (.reply "RSP:CS:PWR:BOGUS") (mkInitState "w5" 5 Option.none) =
      (mkInitState "w5" 5 Option.none, .normal) :=
  ⟨by decide,
   c5_update_power_state.2.2.2 (mkInitState "w5" 5 Option.none) "RSP:CS:PWR:BOGUS"
     (by decide) (by decide) (by decide)⟩

/-- C4 counterexample: three consecutive audio-profile (`"APROF"`) replies
followed by a real one make `update_current_source` perform four transport
round trips — more than the claimed bound of two — because the `"APROF"`
branch recurses unconditionally. -/
theorem c4_counterexample :
    (update_current_source
        (List.replicate 3 (.reply "RSP:CS:ACT:APROF:AP1") ++ [.reply "RSP:CS:ACT:TV"])
        (mkInitState "avr4" 15003 (some "ML"))).2.2 = 4 ∧
    ¬ (4 ≤ 2) :=
  ⟨by decide, by decide⟩

/-- C4 (amended): the recursion of `update_current_source` is unbounded —
it issues one additional round trip per consecutive `"APROF"` reply, so `k`
audio-profile echoes followed by a real reply cost exactly `k + 1` round
trips (and an all-`"APROF"` reply sequence never stops recursing within any
bound); it is not capped at one retry. -/
theorem c4_update_current_source_unbounded :
    ∀ (k : Nat) (st : MLState),
      update_current_source
          (List.replicate k (.reply "RSP:CS:ACT:APROF:AP1") ++ [.reply "RSP:CS:ACT:TV"]) st =
        ({st with current_source := some "TV"}, .normal, k + 1) := by
  intro k st
  induction k with
  | zero => rfl
  | succ n ih =>
      rw [List.replicate_succ, List.cons_append]
      have hstep :
          update_current_source
              ((TransportResult.reply "RSP:CS:ACT:APROF:AP1") ::
                (List.replicate n (TransportResult.reply "RSP:CS:ACT:APROF:AP1") ++
                  [TransportResult.reply "RSP:CS:ACT:TV"])) st =
            (let r := update_current_source
                (List.replicate n (TransportResult.reply "RSP:CS:ACT:APROF:AP1") ++
                  [TransportResult.reply "RSP:CS:ACT:TV"]) st
             (r.1, r.2.1, r.2.2 + 1)) := rfl
      rw [hstep, ih]

/-- C6 counterexample: on the reply `"RSP:CS:VOL:-5.0"`, `update_volume`
parses the 4th field with `float(...)` and caches `-5.0` — a negative value
other than the sentinel `-1.0`. -/
theorem c6_counterexample :
    (update_volume (.reply "RSP:CS:VOL:-5.0") (mkInitState "avr6" 15003 Option.none)).1.volume
        = -5 ∧
    ((-5 : ℚ) < 0) ∧ ((-5 : ℚ) ≠ -1) := by
  refine ⟨?_, by norm_num, by norm_num⟩
  show partsToRat (true, ['5'], ['0']) = -5
  have h5 : '5'.toNat - 48 = 5 := by decide
  have h0 : '0'.toNat - 48 = 0 := by decide
  norm_num [partsToRat, digitsToNat, h5, h0]

/-- C6 (amended): after any `update_volume` call, a negative cached volume
is either the untouched previous value, the parse-failure sentinel `-1.0`,
or the value the device reply's 4th colon field actually parsed to — the
parser forwards negative device values unchanged, so `-1.0` is not the only
negative value it can produce. -/
theorem c6_update_volume_negative :
    ∀ (t : TransportResult) (st : MLState),
      (update_volume t st).1.volume < 0 →
      (update_volume t st).1.volume = st.volume ∨
      (update_volume t st).1.volume = -1 ∨
      ∃ r f, t = .reply r ∧
        pyIndexStr (pySplit ':' (stripCRLF r)) 3 = .ok f ∧
        pyFloat f = some ((update_volume t st).1.volume) := by
  intro t st _
  cases t with
  | noSocket => left; rfl
  | sendError => left; rfl
  | recvError => left; rfl
  | decodeError => left; rfl
  | reply r =>
      have hs : send_command "VOLUME" "?" (.reply r) = .ok (some (stripCRLF r)) := rfl
      simp only [update_volume, hs]
      split
      · left; rfl
      · split
        · split
          · left; rfl
          · split
            · split
              · rename_i xe s heq1 xo v heq2
                right; right
                refine ⟨r, s, rfl, heq1, ?_⟩
                rw [heq2]
              · right; left; rfl
            · left; rfl
        · left; rfl

/-- C6 witness: an unparsable volume field yields the sentinel, which the
characterisation covers. -/
theorem c6_witness :
    (update_volume (.reply "RSP:CS:VOL:garbage") (mkInitState "w6" 6 Option.none)).1.volume < 0 ∧
    ((update_volume (.reply "RSP:CS:VOL:garbage") (mkInitState "w6" 6 Option.none)).1.volume =
        (mkInitState "w6" 6 Option.none).volume ∨
      (update_volume (.reply "RSP:CS:VOL:garbage") (mkInitState "w6" 6 Option.none)).1.volume = -1 ∨
      ∃ r f, TransportResult.reply "RSP:CS:VOL:garbage" = .reply r ∧
        pyIndexStr (pySplit ':' (stripCRLF r)) 3 = .ok f ∧
        pyFloat f =
          some ((update_volume (.reply "RSP:CS:VOL:garbage")
            (mkInitState "w6" 6 Option.none)).1.volume)) := by
  have hv : (update_volume (.reply "RSP:CS:VOL:garbage")
      (mkInitState "w6" 6 Option.none)).1.volume = -1 := by decide
  have hlt : (update_volume (.reply "RSP:CS:VOL:garbage")
      (mkInitState "w6" 6 Option.none)).1.volume < 0 := by
    rw [hv]; norm_num
  exact ⟨hlt, c6_update_volume_negative _ _ hlt⟩

/-- The string rendering of a float is never empty (it always contains the
decimal point), so the volume property is always a truthy Python string. -/
theorem pyFloatRepr_ne_nil (q : ℚ) : (pyFloatRepr q).data ≠ [] := by
  show ((if q < 0 then ['-'] else []) ++ (Nat.repr (q.num.natAbs / q.den)).data ++
      '.' :: (if q.num.natAbs % q.den = 0 then ['0']
              else fracDigitsAux 17 (q.num.natAbs % q.den) q.den)) ≠ []
  intro h
  rcases List.append_eq_nil.mp h with ⟨h1, h2⟩
  exact List.cons_ne_nil _ _ h2

/-- C9 (confirmed): in every client state, the public `volume` property is
the *string* rendering of the cached volume, not a number; consequently the
platform layer's `self._avr.volume / 100` (media_player.py line 89) divides
a string by an int and raises `TypeError` — the arithmetic is ill-typed. -/
theorem c9_volume_property_is_string :
    ∀ st : MLState,
      volumeProp st = PyVal.str (pyFloatRepr st.volume) ∧
      mediaPlayerVolumeLine st = .error .typeError := by
  intro st
  refine ⟨rfl, ?_⟩
  have hne := pyFloatRepr_ne_nil st.volume
  have ht : pyTruthyVal (volumeProp st) = true := by
    simp only [volumeProp, pyTruthyVal]
    cases hl : (pyFloatRepr st.volume).data with
    | nil => exact absurd hl hne
    | cons c cs => rfl
  simp only [mediaPlayerVolumeLine, ht, if_true]
  rfl

/-- The field-extraction skeleton of `decode_message`: indexing the split
message at 0, 1, 2 and 3, each step able to raise `IndexError`. -/
def decodeIndexChain (l : List String) : Except PyExc Unit := do
  let _header ← pyIndexStr l 0
  let _source ← pyIndexStr l 1
  let _command ← pyIndexStr l 2
  let _param ← pyIndexStr l 3
  pure ()

/-- The indexing chain raises `IndexError` exactly on lists shorter than
four, and returns `()` (Python `None`) otherwise. -/
theorem decodeIndexChain_spec (l : List String) :
    (l.length < 4 → decodeIndexChain l = .error .indexError) ∧
    (4 ≤ l.length → decodeIndexChain l = .ok ()) := by
  rcases l with _ | ⟨a, _ | ⟨b, _ | ⟨c, _ | ⟨d, rest⟩⟩⟩⟩
  · exact ⟨fun _ => rfl, fun h => absurd h (by simp)⟩
  · exact ⟨fun _ => rfl, fun h => absurd h (by simp)⟩
  · exact ⟨fun _ => rfl, fun h => absurd h (by simp)⟩
  · exact ⟨fun _ => rfl, fun h => absurd h (by simp)⟩
  · refine ⟨fun h => ?_, fun _ => rfl⟩
    simp at h
    omega

/-- C10 (confirmed): `decode_message` on any message with fewer than four
colon-delimited fields raises an out-of-bounds `IndexError` while
extracting the header/source/command/parameter fields, and on every message
with at least four fields it returns Python `None` — no classification
value is ever returned. -/
theorem c10_decode_message :
    ∀ message : String,
      ((pySplit ':' message).length < 4 →
          decode_message message = .error .indexError) ∧
      (4 ≤ (pySplit ':' message).length →
          decode_message message = .ok ()) := by
  intro message
  have he : decode_message message = decodeIndexChain (pySplit ':' message) := rfl
  rw [he]
  exact decodeIndexChain_spec (pySplit ':' message)

/-- C10 witness: `"RSP:CS:PWR"` (three fields) raises `IndexError`;
`"RSP:CS:PWR:ON"` (four fields) returns `None`. -/
theorem c10_witness :
    ((pySplit ':' "RSP:CS:PWR").length < 4 ∧
      decode_message "RSP:CS:PWR" = .error .indexError) ∧
    (4 ≤ (pySplit ':' "RSP:CS:PWR:ON").length ∧
      decode_message "RSP:CS:PWR:ON" = .ok ()) :=
  ⟨⟨by decide, (c10_decode_message "RSP:CS:PWR").1 (by decide)⟩,
   ⟨by decide, (c10_decode_message "RSP:CS:PWR:ON").2 (by decide)⟩⟩

/-- A transport failure or an unknown heartbeat reply leaves the pair
untouched, and each recognised reply sets a consistent pair, so
`update_power_state` preserves the state/power coupling. -/
theorem inv_update_power_state (t : TransportResult) (st : MLState) (h : stateInv st) :
    stateInv (update_power_state t st).1 := by
  rcases hs : send_command "HEARTBEAT" "" t with e | resp
  · simp only [update_power_state, hs]
    split <;> exact h
  · simp only [update_power_state, hs]
    (repeat' split) <;> first | exact h | exact rfl

/-- `update_sources` never writes `_state` or `_power`. -/
theorem inv_update_sources (t : TransportResult) (st : MLState) (h : stateInv st) :
    stateInv (update_sources t st).1 := by
  rcases hs : send_command "GET_SOURCES" "" t with e | resp
  · simp only [update_sources, hs]
    split <;> exact h
  · rcases resp with _ | r
    · simp only [update_sources, hs]; exact h
    · simp only [update_sources, hs]
      (repeat' split) <;> exact h

/-- `update_current_source` never writes `_state` or `_power`, through any
depth of its `"APROF"` recursion. -/
theorem inv_update_current_source (ts : List TransportResult) (st : MLState)
    (h : stateInv st) : stateInv (update_current_source ts st).1 := by
  induction ts generalizing st with
  | nil => exact h
  | cons t rest ih =>
      rcases hs : send_command "SOURCE" "?" t with e | resp
      · simp only [update_current_source, hs]
        split <;> exact h
      · rcases resp with _ | r
        · simp only [update_current_source, hs]; exact h
        · simp only [update_current_source, hs]
          (repeat' split) <;> first | exact h | exact ih st h

/-- `update_volume` never writes `_state` or `_power`. -/
theorem inv_update_volume (t : TransportResult) (st : MLState) (h : stateInv st) :
    stateInv (update_volume t st).1 := by
  rcases hs : send_command "VOLUME" "?" t with e | resp
  · simp only [update_volume, hs]
    split <;> exact h
  · rcases resp with _ | r
    · simp only [update_volume, hs]; exact h
    · simp only [update_volume, hs]
      (repeat' split) <;> exact h

/-- `update_mutestate` never writes `_state` or `_power`. -/
theorem inv_update_mutestate (t : TransportResult) (st : MLState) (h : stateInv st) :
    stateInv (update_mutestate t st).1 := by
  rcases hs : send_command "MUTE_TOGGLE" "?" t with e | resp
  · simp only [update_mutestate, hs]
    split <;> exact h
  · rcases resp with _ | r
    · simp only [update_mutestate, hs]; exact h
    · simp only [update_mutestate, hs]
      (repeat' split) <;> exact h

/-- `power_on` sets the consistent pair `(ON, on)` or leaves both alone. -/
theorem inv_power_on (t : TransportResult) (st : MLState) (h : stateInv st) :
    stateInv (power_on t st).1 := by
  rcases hs : send_command "POWER_ON" "" t with e | resp
  · simp only [power_on, hs]
    split <;> exact h
  · simp only [power_on, hs]
    exact rfl

/-- `power_off` sets the consistent pair `(OFF, off)` or leaves both alone. -/
theorem inv_power_off (t : TransportResult) (st : MLState) (h : stateInv st) :
    stateInv (power_off t st).1 := by
  rcases hs : send_command "POWER_OFF" "" t with e | resp
  · simp only [power_off, hs]
    split <;> exact h
  · simp only [power_off, hs]
    exact rfl

/-- `sleep` never writes any state field. -/
theorem inv_sleep (t : TransportResult) (st : MLState) (h : stateInv st) :
    stateInv (sleep t st).1 := by
  rcases hs : send_command "SLEEP" "" t with e | resp
  · simp only [sleep, hs]
    split <;> exact h
  · simp only [sleep, hs]
    exact h

/-- `set_volume` never writes `_state` or `_power`. -/
theorem inv_set_volume (v : ℚ) (t : TransportResult) (st : MLState) (h : stateInv st) :
    stateInv (set_volume v t st).1 := by
  rcases hs : send_command "VOLUME" (pyFloatRepr v) t with e | resp
  · simp only [set_volume, hs]
    split <;> exact h
  · rcases resp with _ | r
    · simp only [set_volume, hs, pyInOpt]; exact h
    · simp only [set_volume, hs, pyInOpt]
      (repeat' split) <;> exact h

/-- `volume_up` delegates to `set_volume`, which preserves the coupling. -/
theorem inv_volume_up (t : TransportResult) (st : MLState) (h : stateInv st) :
    stateInv (volume_up t st).1 := by
  have h2 := inv_set_volume (st.volume + 1 / 2) t st h
  rcases hsv : set_volume (st.volume + 1 / 2) t st with ⟨st1, res⟩
  rw [hsv] at h2
  rcases res with e | b
  · simp only [volume_up, hsv]
    split <;> exact h2
  · simp only [volume_up, hsv]
    exact h2

/-- `volume_down` delegates to `set_volume`, which preserves the coupling. -/
theorem inv_volume_down (t : TransportResult) (st : MLState) (h : stateInv st) :
    stateInv (volume_down t st).1 := by
  have h2 := inv_set_volume (st.volume - 1 / 2) t st h
  rcases hsv : set_volume (st.volume - 1 / 2) t st with ⟨st1, res⟩
  rw [hsv] at h2
  rcases res with e | b
  · simp only [volume_down, hsv]
    split <;> exact h2
  · simp only [volume_down, hsv]
    exact h2

/-- `select_source` never writes `_state` or `_power`. -/
theorem inv_select_source (s : String) (t : TransportResult) (st : MLState)
    (h : stateInv st) : stateInv (select_source s t st).1 := by
  rcases hs : send_command "SOURCE" s t with e | resp
  · simp only [select_source, hs]
    split <;> exact h
  · simp only [select_source, hs]
    split <;> exact h

/-- `mute` never writes `_state` or `_power`. -/
theorem inv_mute (b : Bool) (t : TransportResult) (st : MLState) (h : stateInv st) :
    stateInv (mute b t st).1 := by
  simp only [mute]
  split
  · rcases hs : send_command "MUTE_TOGGLE" "ON" t with e | resp
    · simp only [hs]
      split <;> exact h
    · simp only [hs]
      exact h
  · rcases hs : send_command "MUTE_TOGGLE" "OFF" t with e | resp
    · simp only [hs]
      split <;> exact h
    · simp only [hs]
      exact h

/-- Sequencing preserves any property preserved by both steps. -/
theorem seqOutcome_inv (r : MLState × Outcome) (f : MLState → MLState × Outcome)
    (hr : stateInv r.1) (hf : ∀ s, stateInv s → stateInv (f s).1) :
    stateInv (seqOutcome r f).1 := by
  rcases r with ⟨s, o⟩
  cases o with
  | normal => exact hf s hr
  | raised e => exact hr
  | outOfReplies => exact hr

/-- `update_all` is the composition of the five refresh steps, each of
which preserves the coupling. -/
theorem inv_update_all (t1 t2 t3 : TransportResult) (tcs : List TransportResult)
    (t4 : TransportResult) (st : MLState) (h : stateInv st) :
    stateInv (update_all t1 t2 t3 tcs t4 st).1 := by
  unfold update_all
  refine seqOutcome_inv _ _ (inv_update_power_state t1 st h) ?_
  intro s1 h1
  refine seqOutcome_inv _ _ (inv_update_volume t2 s1 h1) ?_
  intro s2 h2
  refine seqOutcome_inv _ _ (inv_update_mutestate t3 s2 h2) ?_
  intro s3 h3
  split
  · refine seqOutcome_inv _ _ (inv_update_current_source tcs s3 h3) ?_
    intro s4 h4
    exact inv_update_sources t4 s4 h4
  · exact h3

/-- C8 (confirmed): the freshly initialised client satisfies the coupling
`_state = stateOfPower _power` — `on` exactly when power is `ON`, `off` for
`OFF` and `STANDBY`, nothing when power is unknown — and every public
operation of the client, under every transport outcome, preserves it: no
operation ever sets the display state independently of the power state. -/
theorem c8_state_pure_function_of_power :
    (∀ (host : String) (port : Nat) (nm : Option String),
        stateInv (mkInitState host port nm)) ∧
    (∀ (op : Op) (st : MLState), stateInv st → stateInv (runOp op st)) := by
  constructor
  · intro host port nm
    exact rfl
  · intro op st h
    cases op with
    | opUpdatePowerState t => exact inv_update_power_state t st h
    | opUpdateSources t => exact inv_update_sources t st h
    | opUpdateCurrentSource ts => exact inv_update_current_source ts st h
    | opUpdateVolume t => exact inv_update_volume t st h
    | opUpdateMutestate t => exact inv_update_mutestate t st h
    | opUpdateAll t1 t2 t3 tcs t4 => exact inv_update_all t1 t2 t3 tcs t4 st h
    | opPowerOn t => exact inv_power_on t st h
    | opPowerOff t => exact inv_power_off t st h
    | opSleep t => exact inv_sleep t st h
    | opVolumeUp t => exact inv_volume_up t st h
    | opVolumeDown t => exact inv_volume_down t st h
    | opSetVolume v t => exact inv_set_volume v t st h
    | opSelectSource s t => exact inv_select_source s t st h
    | opMute b t => exact inv_mute b t st h

/-- C8 witness: the initial state satisfies the coupling and `power_on`
keeps it. -/
theorem c8_witness :
    stateInv (mkInitState "w8" 8 Option.none) ∧
    stateInv (runOp (.opPowerOn (.reply "RSP:CS:PWR:ACK")) (mkInitState "w8" 8 Option.none)) :=
  ⟨c8_state_pure_function_of_power.1 "w8" 8 Option.none,
   c8_state_pure_function_of_power.2 (.opPowerOn (.reply "RSP:CS:PWR:ACK"))
     (mkInitState "w8" 8 Option.none) rfl⟩
